import Mathlib

/-!
Shallow embedding of the Tab / pane-tree layer of the terminal-multiplexer
repository (Tab.cpp).  The `Tab` mediation code is embedded directly from the
source; the `Pane` tree operations it calls are not part of the provided
sources, so they are modelled from the specification (each such definition
says so in its doc comment).
-/

namespace Terminal

/-- Split orientation, mirroring the `SplitState` enumeration consumed by
`Tab::CanSplitPane` / `Tab::SplitPane` (`vertical` = side-by-side panes,
separating on the width axis; `horizontal` = stacked panes, separating on the
height axis). -/
inductive SplitState where
  | vertical
  | horizontal
deriving DecidableEq, Repr

/-- External terminal-view handle held by a leaf pane.  The Tab layer only
observes its title (`TermControl::Title()`), so that is the only datum
modelled. -/
structure TermControl where
  title : String
deriving DecidableEq, Repr

/-- Modelled from the spec: a `Pane` is a tree node, either a leaf holding one
content handle (together with its profile GUID, its last allocated size, and
its `isActive`/last-focused flag) or a split holding two ordered children and
an orientation.  Profiles (GUIDs) are represented by naturals and sizes by
naturals (integer halving models the default 1/2 ratio). -/
inductive Pane where
  | leaf (profile : Nat) (control : TermControl) (width height : Nat) (isActive : Bool)
  | split (splitType : SplitState) (first second : Pane)
deriving DecidableEq, Repr

/-- Number of leaves of the tree whose `isActive` flag is set. -/
def countActive : Pane → Nat
  | .leaf _ _ _ _ a => if a then 1 else 0
  | .split _ x y => countActive x + countActive y

/-- Modelled from the spec: recursive check whether any leaf of the subtree is
marked active. -/
def hasActive : Pane → Bool
  | .leaf _ _ _ _ a => a
  | .split _ x y => hasActive x || hasActive y

/-- Modelled from the spec: `Pane::ClearActive`, the recursive clear of the
`isActive` flag across the whole tree. -/
def clearActive : Pane → Pane
  | .leaf p c w h _ => .leaf p c w h false
  | .split s x y => .split s (clearActive x) (clearActive y)

/-- A pane inside the tree is identified by its path from the root:
`false` descends into the first child, `true` into the second. -/
abbrev PanePath := List Bool

/-- Subtree of the pane tree reached by following a path (none if the path
walks past a leaf). -/
def paneAt : Pane → PanePath → Option Pane
  | t, [] => some t
  | .leaf _ _ _ _ _, _ :: _ => none
  | .split _ x y, b :: p => paneAt (if b then y else x) p

/-- Whether the path designates a leaf of the tree. -/
def isLeafAt (t : Pane) (p : PanePath) : Bool :=
  match paneAt t p with
  | some (.leaf _ _ _ _ _) => true
  | _ => false

/-- Modelled from the spec: `Pane::SetActive` on the leaf designated by the
path (no effect when the path does not lead to a leaf). -/
def setActiveAt : Pane → PanePath → Pane
  | .leaf pr c w h _, [] => .leaf pr c w h true
  | .leaf pr c w h a, _ :: _ => .leaf pr c w h a
  | .split s x y, [] => .split s x y
  | .split s x y, b :: p =>
      if b then .split s x (setActiveAt y p) else .split s (setActiveAt x p) y

/-- Modelled from the spec: deterministic fallback after a collapse — the
leftmost leaf of the promoted subtree becomes the active one. -/
def firstLeafActive : Pane → Pane
  | .leaf pr c w h _ => .leaf pr c w h true
  | .split s x y => .split s (firstLeafActive x) y

/-- Size of a pane along the axis a split of the given orientation would
divide. -/
def splitAxisSize (s : SplitState) (w h : Nat) : Nat :=
  match s with
  | .vertical => w
  | .horizontal => h

/-- Sizes handed to both children of a fresh split (default split ratio 1/2 on
the split axis, full size on the other axis). -/
def splitChildSizes (s : SplitState) (w h : Nat) : Nat × Nat :=
  match s with
  | .vertical => (w / 2, h)
  | .horizontal => (w, h / 2)

/-- Modelled from the spec: the split-axis size of the (unique) active leaf,
or none when no leaf is active. -/
def activeLeafAxisSize (s : SplitState) : Pane → Option Nat
  | .leaf _ _ w h a => if a then some (splitAxisSize s w h) else none
  | .split _ x y =>
      match activeLeafAxisSize s x with
      | some q => some q
      | none => activeLeafAxisSize s y

/-- Modelled from the spec: `Pane::CanSplit`, applied to the active leaf —
true iff its allocated size on the split axis, divided in half (default
ratio), leaves both children at or above the minimum usable size. -/
def paneCanSplit (minSize : Nat) (s : SplitState) (t : Pane) : Bool :=
  match activeLeafAxisSize s t with
  | some sz => decide (minSize ≤ sz / 2)
  | none => false

/-- Modelled from the spec: `Pane::Split` at the active leaf — the leaf is
replaced by a split node whose first child is a fresh leaf wrapping the
original content and whose second child is a fresh leaf wrapping the new
content; the newly split-in pane becomes the active one, and both children
receive their allocated sizes. -/
def splitActive (s : SplitState) (profile : Nat) (c : TermControl) : Pane → Pane
  | .leaf pr c0 w h a =>
      if a then
        .split s (.leaf pr c0 (splitChildSizes s w h).1 (splitChildSizes s w h).2 false)
          (.leaf profile c (splitChildSizes s w h).1 (splitChildSizes s w h).2 true)
      else .leaf pr c0 w h a
  | .split s0 x y => .split s0 (splitActive s profile c x) (splitActive s profile c y)

/-- Modelled from the spec: `Pane::Close` of the active leaf.  Returns none
when the whole (sub)tree closes (`TreeEmptied`); otherwise the sibling of the
closed leaf is promoted into the parent slot and, having no previously active
descendant, gets its leftmost leaf marked active. -/
def closeActive : Pane → Option Pane
  | .leaf pr c w h a => if a then none else some (.leaf pr c w h a)
  | .split s x y =>
      if hasActive x then
        match closeActive x with
        | none => some (firstLeafActive y)
        | some x1 => some (.split s x1 y)
      else if hasActive y then
        match closeActive y with
        | none => some (firstLeafActive x)
        | some y1 => some (.split s x y1)
      else some (.split s x y)

/-- State of a `Tab` object, mirroring the fields of Tab.cpp that the claims
touch: `_rootPane` (none once the tree has emptied), `_activePane` (tracked as
a path into the tree, mirroring the non-owning pointer), `_focused`,
`_lastIconPath`, and the `TabViewItem` header text set through `SetTabText`. -/
structure TabState where
  rootPane : Option Pane
  activePanePath : Option PanePath
  focused : Bool
  lastIconPath : String
  tabViewItemHeader : String
deriving DecidableEq, Repr

/-- `Tab::Tab(profile, control)`: builds the root pane as a single last-focused
leaf around the initial content, wires the root's Closed event, sets
`_activePane = _rootPane`, and makes the (empty) TabViewItem.  The initial
allocated size of the root leaf is a parameter. -/
def tabInit (profile : Nat) (control : TermControl) (w h : Nat) : TabState :=
  { rootPane := some (.leaf profile control w h true)
    activePanePath := some []
    focused := false
    lastIconPath := ""
    tabViewItemHeader := "" }

/-- `Tab::GetActiveTerminalControl`: delegates to the tracked active pane;
the control of the leaf the tracked path designates, or a null handle (none)
when the tree is empty or the path designates no leaf (the pane-side
`GetTerminalControl` is modelled from the spec: the active leaf's content,
absent when there is none). -/
def getActiveTerminalControl (st : TabState) : Option TermControl :=
  match st.rootPane, st.activePanePath with
  | some t, some p =>
      match paneAt t p with
      | some (.leaf _ c _ _ _) => some c
      | _ => none
  | _, _ => none

/-- `Tab::GetFocusedProfile`: delegates to the tracked active pane; nullopt
when there is no focused leaf (pane side modelled from the spec). -/
def getFocusedProfile (st : TabState) : Option Nat :=
  match st.rootPane, st.activePanePath with
  | some t, some p =>
      match paneAt t p with
      | some (.leaf pr _ _ _ _) => some pr
      | _ => none
  | _, _ => none

/-- `Tab::GetActiveTitle`: the title of the last focused terminal control, or
the empty string if there is no such control. -/
def getActiveTitle (st : TabState) : String :=
  match getActiveTerminalControl st with
  | some c => c.title
  | none => ""

/-- `Tab::SetFocused` (together with `Tab::_Focus`): records the focus flag;
when gaining focus, `_Focus` re-asserts the flag and requests focus on the
active terminal control if there is one.  The second component reports the
control a focus request was issued to (none: no request). -/
def tabSetFocused (st : TabState) (focused : Bool) : TabState × Option TermControl :=
  let st1 : TabState := { st with focused := focused }
  if focused then
    let st2 : TabState := { st1 with focused := true }
    (st2, getActiveTerminalControl st2)
  else
    (st1, none)

/-- `Tab::UpdateIcon`: returns early when the path equals `_lastIconPath`;
otherwise records the new path and schedules the asynchronous icon reload.
The second component reports whether a reload was scheduled. -/
def updateIcon (st : TabState) (iconPath : String) : TabState × Bool :=
  if iconPath = st.lastIconPath then
    (st, false)
  else
    ({ st with lastIconPath := iconPath }, true)

/-- The TitleChanged handler installed by `Tab::_AttachEventHandlersToControl`:
ignores the event's new title and sets the tab's text to the active pane's
title (`SetTabText(GetActiveTitle())`). -/
def titleChangedHandler (st : TabState) (_newTitle : String) : TabState :=
  { st with tabViewItemHeader := getActiveTitle st }

/-- The GotFocus handler installed by `Tab::_AttachEventHandlersToPane`: when
the sender is not the tracked active pane, clears the active state of the
entire tree, marks only the sender as active, updates the tracked reference,
refreshes the tab text from the newly active pane, and raises
ActivePaneChanged (second component).  When the sender is already tracked the
handler does nothing.  (Senders are always panes of the live tree; the
empty-tree branch is an unreachable guard.) -/
def gotFocusHandler (st : TabState) (sender : PanePath) : TabState × Bool :=
  if st.activePanePath = some sender then
    (st, false)
  else
    match st.rootPane with
    | none => (st, false)
    | some t =>
        let t1 := setActiveAt (clearActive t) sender
        let st1 : TabState := { st with rootPane := some t1, activePanePath := some sender }
        ({ st1 with tabViewItemHeader := getActiveTitle st1 }, true)

/-- The Closed handler wired in the Tab constructor: raises the Tab's own
Closed event (second component) unconditionally, with no state check. -/
def closedHandler (st : TabState) : TabState × Bool :=
  (st, true)

/-- `Tab::ClosePane` (`_activePane->Close()`) together with the event flow
modelled from the spec: the active leaf closes; when the tree empties the
root's Closed event fires, which runs the constructor-wired handler.  The
second component reports whether the Tab's own Closed notification was
raised. -/
def tabClosePane (st : TabState) : TabState × Bool :=
  match st.rootPane with
  | none => (st, false)
  | some t =>
      match closeActive t with
      | none => closedHandler { st with rootPane := none }
      | some t1 => ({ st with rootPane := some t1 }, false)

/-- `Tab::CanSplitPane`: delegates the feasibility check to the active pane
(`CanSplit` modelled from the spec, see `paneCanSplit`). -/
def tabCanSplitPane (minSize : Nat) (st : TabState) (s : SplitState) : Bool :=
  match st.rootPane with
  | some t => paneCanSplit minSize s t
  | none => false

/-- `Tab::SplitPane`: splits the active pane; modelled from the spec, the
split fails with no mutation when `CanSplit` is false for the target size. -/
def tabSplitPane (minSize : Nat) (st : TabState) (s : SplitState) (profile : Nat)
    (c : TermControl) : TabState :=
  if tabCanSplitPane minSize st s then
    { st with rootPane := (st.rootPane).map (splitActive s profile c) }
  else
    st

/-- `Tab::NavigateFocus`, modelled from the spec: on a successful move the
tree-wide active flag is cleared and set on the destination leaf; an
unsuccessful move (tree edge) changes nothing.  The destination leaf the
directional geometry resolves to is abstracted as a path parameter; it is
applied only when it designates a leaf of the tree. -/
def tabNavigateFocus (st : TabState) (target : PanePath) : TabState :=
  match st.rootPane with
  | none => st
  | some t =>
      if isLeafAt t target then
        { st with rootPane := some (setActiveAt (clearActive t) target) }
      else
        st

/-- Dispatch of a content-originated GotFocus event: only leaves of the live
tree raise GotFocus, so the handler only ever runs for a sender that is a
leaf of the current tree. -/
def dispatchGotFocus (st : TabState) (sender : PanePath) : TabState :=
  match st.rootPane with
  | none => st
  | some t =>
      if isLeafAt t sender then (gotFocusHandler st sender).1 else st

/-- A mutation of the Tab, as enumerated by the single-active-pane invariant:
a split, a close, a focus navigation, or a content-originated GotFocus
event. -/
inductive TabOp where
  | splitOp (s : SplitState) (profile : Nat) (c : TermControl)
  | closeOp
  | navigateOp (target : PanePath)
  | gotFocusOp (sender : PanePath)

/-- One step of the Tab under a mutation. -/
def applyOp (minSize : Nat) (st : TabState) : TabOp → TabState
  | .splitOp s profile c => tabSplitPane minSize st s profile c
  | .closeOp => (tabClosePane st).1
  | .navigateOp target => tabNavigateFocus st target
  | .gotFocusOp sender => dispatchGotFocus st sender

/-- A whole sequence of mutations applied in order. -/
def applyOps (minSize : Nat) (ops : List TabOp) (st : TabState) : TabState :=
  ops.foldl (applyOp minSize) st

@[simp]
theorem isLeafAt_leaf_nil (pr : Nat) (c : TermControl) (w h : Nat) (a : Bool) :
    isLeafAt (.leaf pr c w h a) [] = true := rfl

@[simp]
theorem isLeafAt_leaf_cons (pr : Nat) (c : TermControl) (w h : Nat) (a : Bool)
    (b : Bool) (p : PanePath) : isLeafAt (.leaf pr c w h a) (b :: p) = false := rfl

@[simp]
theorem isLeafAt_split_nil (s : SplitState) (x y : Pane) :
    isLeafAt (.split s x y) [] = false := rfl

@[simp]
theorem isLeafAt_split_cons (s : SplitState) (x y : Pane) (b : Bool) (p : PanePath) :
    isLeafAt (.split s x y) (b :: p) = isLeafAt (if b then y else x) p := rfl

@[simp]
theorem countActive_clearActive (t : Pane) : countActive (clearActive t) = 0 := by
  induction t with
  | leaf pr c w h a => simp [clearActive, countActive]
  | split s x y ihx ihy => simp [clearActive, countActive, ihx, ihy]

theorem isLeafAt_clearActive (t : Pane) (p : PanePath) :
    isLeafAt (clearActive t) p = isLeafAt t p := by
  induction t generalizing p with
  | leaf pr c w h a => cases p <;> simp [clearActive]
  | split s x y ihx ihy =>
      cases p with
      | nil => simp [clearActive]
      | cons b p1 => cases b <;> simp [clearActive, ihx, ihy]

theorem countActive_setActiveAt (t : Pane) (p : PanePath)
    (h0 : countActive t = 0) (hleaf : isLeafAt t p = true) :
    countActive (setActiveAt t p) = 1 := by
  induction t generalizing p with
  | leaf pr c w h a =>
      cases p with
      | nil => simp [setActiveAt, countActive]
      | cons b p1 => simp at hleaf
  | split s x y ihx ihy =>
      cases p with
      | nil => simp at hleaf
      | cons b p1 =>
          have hsum : countActive x + countActive y = 0 := h0
          have hx : countActive x = 0 := by omega
          have hy : countActive y = 0 := by omega
          cases b with
          | false =>
              have hl : isLeafAt x p1 = true := by simpa using hleaf
              simp [setActiveAt, countActive, ihx p1 hx hl, hy]
          | true =>
              have hl : isLeafAt y p1 = true := by simpa using hleaf
              simp [setActiveAt, countActive, ihy p1 hy hl, hx]

theorem countActive_splitActive (s : SplitState) (profile : Nat) (c : TermControl)
    (t : Pane) : countActive (splitActive s profile c t) = countActive t := by
  induction t with
  | leaf pr c0 w h a => cases a <;> simp [splitActive, countActive]
  | split s0 x y ihx ihy => simp [splitActive, countActive, ihx, ihy]

theorem hasActive_iff_countActive (t : Pane) :
    hasActive t = true ↔ 0 < countActive t := by
  induction t with
  | leaf pr c w h a => cases a <;> simp [hasActive, countActive]
  | split s x y ihx ihy =>
      simp only [hasActive, countActive, Bool.or_eq_true, ihx, ihy]
      omega

theorem countActive_firstLeafActive (t : Pane) (h : countActive t = 0) :
    countActive (firstLeafActive t) = 1 := by
  induction t with
  | leaf pr c w h a => simp [firstLeafActive, countActive]
  | split s x y ihx ihy =>
      have hsum : countActive x + countActive y = 0 := h
      have hx : countActive x = 0 := by omega
      have hy : countActive y = 0 := by omega
      simp [firstLeafActive, countActive, ihx hx, hy]

theorem countActive_closeActive (t t1 : Pane)
    (hc : closeActive t = some t1) (h1 : countActive t = 1) :
    countActive t1 = 1 := by
  induction t generalizing t1 with
  | leaf pr c w h a =>
      cases a with
      | true => simp [closeActive] at hc
      | false => simp [countActive] at h1
  | split s x y ihx ihy =>
      have hsum : countActive x + countActive y = 1 := h1
      by_cases hx : hasActive x = true
      · have hxpos : 0 < countActive x := (hasActive_iff_countActive x).mp hx
        have hcx : countActive x = 1 := by omega
        have hcy : countActive y = 0 := by omega
        simp only [closeActive, hx, if_true] at hc
        cases hcc : closeActive x with
        | none =>
            rw [hcc] at hc
            simp only [Option.some.injEq] at hc
            subst hc
            exact countActive_firstLeafActive y hcy
        | some x1 =>
            rw [hcc] at hc
            simp only [Option.some.injEq] at hc
            subst hc
            have : countActive x1 = 1 := ihx x1 hcc hcx
            simp [countActive, this, hcy]
      · have hcx : countActive x = 0 := by
          have : ¬ 0 < countActive x := fun hp => hx ((hasActive_iff_countActive x).mpr hp)
          omega
        have hcy : countActive y = 1 := by omega
        by_cases hy : hasActive y = true
        · simp only [closeActive, hx, hy, if_true, if_false, Bool.false_eq_true] at hc
          cases hcc : closeActive y with
          | none =>
              rw [hcc] at hc
              simp only [Option.some.injEq] at hc
              subst hc
              exact countActive_firstLeafActive x hcx
          | some y1 =>
              rw [hcc] at hc
              simp only [Option.some.injEq] at hc
              subst hc
              have : countActive y1 = 1 := ihy y1 hcc hcy
              simp [countActive, this, hcx]
        · have : 0 < countActive y := by omega
          exact absurd ((hasActive_iff_countActive y).mpr this) hy

/-- The predicate of the single-active invariant: whenever the tree is
non-empty, exactly one of its leaves is marked active. -/
def SingleActive (st : TabState) : Prop :=
  ∀ t, st.rootPane = some t → countActive t = 1

theorem tabSplitPane_singleActive (minSize : Nat) (st : TabState) (s : SplitState)
    (profile : Nat) (c : TermControl) (h : SingleActive st) :
    SingleActive (tabSplitPane minSize st s profile c) := by
  intro t ht
  rw [tabSplitPane] at ht
  by_cases hcan : tabCanSplitPane minSize st s = true
  · rw [if_pos hcan] at ht
    cases hroot : st.rootPane with
    | none => rw [show ({ st with rootPane := (st.rootPane).map (splitActive s profile c) }
        : TabState).rootPane = (st.rootPane).map (splitActive s profile c) from rfl,
        hroot] at ht
              simp at ht
    | some t0 =>
        rw [show ({ st with rootPane := (st.rootPane).map (splitActive s profile c) }
          : TabState).rootPane = (st.rootPane).map (splitActive s profile c) from rfl,
          hroot] at ht
        have ht2 : splitActive s profile c t0 = t := by simpa using ht
        rw [← ht2, countActive_splitActive]
        exact h t0 hroot
  · rw [if_neg hcan] at ht
    exact h t ht

theorem tabClosePane_singleActive (st : TabState) (h : SingleActive st) :
    SingleActive (tabClosePane st).1 := by
  intro t ht
  cases hroot : st.rootPane with
  | none => simp only [tabClosePane, hroot] at ht
            exact Option.noConfusion ht
  | some t0 =>
      simp only [tabClosePane, hroot] at ht
      cases hclose : closeActive t0 with
      | none =>
          rw [hclose] at ht
          simp [closedHandler] at ht
      | some t1 =>
          rw [hclose] at ht
          simp only [Option.some.injEq] at ht
          rw [← ht]
          exact countActive_closeActive t0 t1 hclose (h t0 hroot)

theorem tabNavigateFocus_singleActive (st : TabState) (target : PanePath)
    (h : SingleActive st) : SingleActive (tabNavigateFocus st target) := by
  intro t ht
  cases hroot : st.rootPane with
  | none => simp only [tabNavigateFocus, hroot] at ht
            exact Option.noConfusion ht
  | some t0 =>
      simp only [tabNavigateFocus, hroot] at ht
      by_cases hleaf : isLeafAt t0 target = true
      · rw [if_pos hleaf] at ht
        simp only [Option.some.injEq] at ht
        rw [← ht]
        exact countActive_setActiveAt (clearActive t0) target
          (countActive_clearActive t0) ((isLeafAt_clearActive t0 target).trans hleaf)
      · rw [if_neg hleaf] at ht
        exact h t ht

theorem dispatchGotFocus_singleActive (st : TabState) (sender : PanePath)
    (h : SingleActive st) : SingleActive (dispatchGotFocus st sender) := by
  intro t ht
  cases hroot : st.rootPane with
  | none => simp only [dispatchGotFocus, hroot] at ht
            exact Option.noConfusion ht
  | some t0 =>
      simp only [dispatchGotFocus, hroot] at ht
      by_cases hleaf : isLeafAt t0 sender = true
      · rw [if_pos hleaf] at ht
        rw [gotFocusHandler] at ht
        by_cases hsame : st.activePanePath = some sender
        · rw [if_pos hsame] at ht
          exact h t ht
        · rw [if_neg hsame, hroot] at ht
          simp only [Option.some.injEq] at ht
          rw [← ht]
          exact countActive_setActiveAt (clearActive t0) sender
            (countActive_clearActive t0) ((isLeafAt_clearActive t0 sender).trans hleaf)
      · rw [if_neg hleaf] at ht
        exact h t ht

theorem applyOp_singleActive (minSize : Nat) (st : TabState) (op : TabOp)
    (h : SingleActive st) : SingleActive (applyOp minSize st op) := by
  cases op with
  | splitOp s profile c => exact tabSplitPane_singleActive minSize st s profile c h
  | closeOp => exact tabClosePane_singleActive st h
  | navigateOp target => exact tabNavigateFocus_singleActive st target h
  | gotFocusOp sender => exact dispatchGotFocus_singleActive st sender h

theorem applyOps_singleActive (minSize : Nat) (ops : List TabOp) (st : TabState)
    (h : SingleActive st) : SingleActive (applyOps minSize ops st) := by
  induction ops generalizing st with
  | nil => exact h
  | cons op rest ih => exact ih (applyOp minSize st op) (applyOp_singleActive minSize st op h)

theorem tabInit_singleActive (profile : Nat) (c : TermControl) (w h : Nat) :
    SingleActive (tabInit profile c w h) := by
  intro t ht
  simp only [tabInit, Option.some.injEq] at ht
  rw [← ht]
  simp [countActive]

/-- C1: for every sequence of mutations (Split, Close, focus navigation, and
content-originated GotFocus events) applied to a freshly constructed Tab,
whenever the pane tree is non-empty exactly one leaf has `isActive = true`;
in particular the GotFocus handler re-establishes this by clearing the active
flag across the whole tree before setting it on exactly one pane. -/
theorem tab_single_active_invariant (minSize profile : Nat) (c : TermControl)
    (w h : Nat) (ops : List TabOp) (t : Pane)
    (ht : (applyOps minSize ops (tabInit profile c w h)).rootPane = some t) :
    countActive t = 1 :=
  applyOps_singleActive minSize ops (tabInit profile c w h)
    (tabInit_singleActive profile c w h) t ht

theorem tab_single_active_invariant_witness :
    (applyOps 10 [TabOp.splitOp SplitState.vertical 1 ⟨"b"⟩]
        (tabInit 0 ⟨"a"⟩ 80 24)).rootPane
      = some (.split .vertical (.leaf 0 ⟨"a"⟩ 40 24 false) (.leaf 1 ⟨"b"⟩ 40 24 true)) ∧
    countActive (.split .vertical (.leaf 0 ⟨"a"⟩ 40 24 false) (.leaf 1 ⟨"b"⟩ 40 24 true)) = 1 :=
  ⟨by decide, tab_single_active_invariant 10 0 ⟨"a"⟩ 80 24
      [TabOp.splitOp SplitState.vertical 1 ⟨"b"⟩] _ (by decide)⟩

theorem paneAt_setActiveAt_clearActive (t : Pane) (p : PanePath) (pr : Nat)
    (c : TermControl) (w h : Nat) (a : Bool)
    (hp : paneAt t p = some (.leaf pr c w h a)) :
    paneAt (setActiveAt (clearActive t) p) p = some (.leaf pr c w h true) := by
  induction t generalizing p with
  | leaf pr0 c0 w0 h0 a0 =>
      cases p with
      | nil =>
          simp only [paneAt, Option.some.injEq, Pane.leaf.injEq] at hp
          obtain ⟨rfl, rfl, rfl, rfl, rfl⟩ := hp
          simp [clearActive, setActiveAt, paneAt]
      | cons b p1 => simp [paneAt] at hp
  | split s x y ihx ihy =>
      cases p with
      | nil => simp [paneAt] at hp
      | cons b p1 =>
          cases b with
          | false =>
              have hp1 : paneAt x p1 = some (.leaf pr c w h a) := hp
              simpa [clearActive, setActiveAt, paneAt] using ihx p1 hp1
          | true =>
              have hp1 : paneAt y p1 = some (.leaf pr c w h a) := hp
              simpa [clearActive, setActiveAt, paneAt] using ihy p1 hp1

theorem isLeafAt_of_paneAt_leaf (t : Pane) (p : PanePath) (pr : Nat)
    (c : TermControl) (w h : Nat) (a : Bool)
    (hp : paneAt t p = some (.leaf pr c w h a)) : isLeafAt t p = true := by
  rw [isLeafAt, hp]

/-- C2: on a GotFocus event whose sender is not the tracked active pane, the
handler clears tree-wide active state, marks the sender active, updates the
tracked active-pane reference, refreshes the cached tab title from the newly
active pane, and raises ActivePaneChanged; when the sender already is the
tracked active pane the handler changes nothing and raises no
notification. -/
theorem tab_gotFocus_handler_behavior (st : TabState) (sender : PanePath)
    (t : Pane) (pr : Nat) (c : TermControl) (w h : Nat) (a : Bool)
    (hroot : st.rootPane = some t)
    (hleaf : paneAt t sender = some (.leaf pr c w h a)) :
    (st.activePanePath = some sender → gotFocusHandler st sender = (st, false)) ∧
    (st.activePanePath ≠ some sender →
      (gotFocusHandler st sender).2 = true ∧
      (gotFocusHandler st sender).1.activePanePath = some sender ∧
      (gotFocusHandler st sender).1.rootPane
        = some (setActiveAt (clearActive t) sender) ∧
      paneAt (setActiveAt (clearActive t) sender) sender
        = some (.leaf pr c w h true) ∧
      countActive (setActiveAt (clearActive t) sender) = 1 ∧
      (gotFocusHandler st sender).1.tabViewItemHeader = c.title ∧
      (gotFocusHandler st sender).1.focused = st.focused ∧
      (gotFocusHandler st sender).1.lastIconPath = st.lastIconPath) := by
  have hpa := paneAt_setActiveAt_clearActive t sender pr c w h a hleaf
  constructor
  · intro hsame
    rw [gotFocusHandler, if_pos hsame]
  · intro hne
    have hred : gotFocusHandler st sender
        = ({ st with
              rootPane := some (setActiveAt (clearActive t) sender),
              activePanePath := some sender,
              tabViewItemHeader := getActiveTitle
                { st with
                  rootPane := some (setActiveAt (clearActive t) sender),
                  activePanePath := some sender } }, true) := by
      rw [gotFocusHandler, if_neg hne, hroot]
    rw [hred]
    refine ⟨rfl, rfl, rfl, hpa, ?_, ?_, rfl, rfl⟩
    · exact countActive_setActiveAt (clearActive t) sender (countActive_clearActive t)
        ((isLeafAt_clearActive t sender).trans
          (isLeafAt_of_paneAt_leaf t sender pr c w h a hleaf))
    · simp [getActiveTitle, getActiveTerminalControl, hpa]

/-- Demonstration tree: two side-by-side leaves, first one active. -/
def demoTree : Pane :=
  .split .vertical (.leaf 0 ⟨"alpha"⟩ 40 24 true) (.leaf 1 ⟨"beta"⟩ 40 24 false)

/-- Demonstration Tab state over `demoTree`, tracking the first leaf. -/
def demoTab : TabState :=
  { rootPane := some demoTree
    activePanePath := some [false]
    focused := true
    lastIconPath := ""
    tabViewItemHeader := "alpha" }

theorem tab_gotFocus_handler_behavior_witness :
    demoTab.activePanePath ≠ some [true] ∧
    ((gotFocusHandler demoTab [true]).2 = true ∧
      (gotFocusHandler demoTab [true]).1.activePanePath = some [true] ∧
      (gotFocusHandler demoTab [true]).1.rootPane
        = some (setActiveAt (clearActive demoTree) [true]) ∧
      paneAt (setActiveAt (clearActive demoTree) [true]) [true]
        = some (.leaf 1 ⟨"beta"⟩ 40 24 true) ∧
      countActive (setActiveAt (clearActive demoTree) [true]) = 1 ∧
      (gotFocusHandler demoTab [true]).1.tabViewItemHeader
        = TermControl.title ⟨"beta"⟩ ∧
      (gotFocusHandler demoTab [true]).1.focused = demoTab.focused ∧
      (gotFocusHandler demoTab [true]).1.lastIconPath = demoTab.lastIconPath) :=
  ⟨by decide,
    (tab_gotFocus_handler_behavior demoTab [true] demoTree 1 ⟨"beta"⟩ 40 24 false
      rfl rfl).2 (by decide)⟩

/-- Bookkeeping of pane-event wiring: which pane objects the Tab has created
and which of their notifications it has subscribed to.  Pane objects are
identified by creation order (the root is pane 0). -/
structure WiringState where
  nextPaneId : Nat
  createdLeaves : List Nat
  gotFocusSubs : List Nat
  closedSubs : List Nat
deriving DecidableEq, Repr

/-- `Tab::_AttachEventHandlersToPane`: subscribes to the pane's GotFocus
notification — and to nothing else. -/
def attachEventHandlersToPane (st : WiringState) (paneId : Nat) : WiringState :=
  { st with gotFocusSubs := st.gotFocusSubs ++ [paneId] }

/-- Event wiring performed by `Tab::Tab`: the root pane (id 0) is created and
its Closed notification subscribed; no GotFocus subscription is made in the
constructor. -/
def tabCtorWiring : WiringState :=
  { nextPaneId := 1, createdLeaves := [0], gotFocusSubs := [], closedSubs := [0] }

/-- `Tab::BindEventHandlers`: attaches the pane-level handlers to the root
pane (the control-level TitleChanged handler is attached separately). -/
def bindEventHandlersWiring (st : WiringState) : WiringState :=
  attachEventHandlersToPane st 0

/-- Event wiring performed by `Tab::SplitPane` after a successful split: the
split produces two fresh leaf panes, and the Tab attaches the pane-level
handlers (GotFocus) to both of them; it makes no Closed subscription for
either. -/
def splitPaneWiring (st : WiringState) : WiringState :=
  attachEventHandlersToPane
    (attachEventHandlersToPane
      { st with
        nextPaneId := st.nextPaneId + 2
        createdLeaves := st.createdLeaves ++ [st.nextPaneId, st.nextPaneId + 1] }
      st.nextPaneId)
    (st.nextPaneId + 1)

/-- C3 counterexample: after construction, BindEventHandlers and one
successful SplitPane, the first split-created pane (id 1) is a leaf the tab
created and carries a GotFocus subscription but no Closed subscription — the
Tab does not subscribe to the Closed notification of every leaf it
creates. -/
theorem tab_wires_both_events_counterexample :
    1 ∈ (splitPaneWiring (bindEventHandlersWiring tabCtorWiring)).createdLeaves ∧
    1 ∈ (splitPaneWiring (bindEventHandlersWiring tabCtorWiring)).gotFocusSubs ∧
    1 ∉ (splitPaneWiring (bindEventHandlersWiring tabCtorWiring)).closedSubs := by
  decide

theorem splitPaneWiring_gotFocus (st : WiringState)
    (h : ∀ i, i ∈ st.createdLeaves → i ∈ st.gotFocusSubs) :
    ∀ i, i ∈ (splitPaneWiring st).createdLeaves →
      i ∈ (splitPaneWiring st).gotFocusSubs := by
  intro i hi
  simp only [splitPaneWiring, attachEventHandlersToPane, List.mem_append,
    List.mem_singleton, List.mem_cons, List.not_mem_nil, or_false] at hi ⊢
  rcases hi with hi | hi | hi
  · exact Or.inl (Or.inl (h i hi))
  · exact Or.inl (Or.inr hi)
  · exact Or.inr hi

theorem splitPaneWiring_closedSubs (st : WiringState) :
    (splitPaneWiring st).closedSubs = st.closedSubs := rfl

/-- C3 (amended): the Tab subscribes to the GotFocus notification of every
leaf it creates — the root once `BindEventHandlers` runs, and both resulting
panes after every successful SplitPane — but it subscribes to a Closed
notification only on the root pane, at construction; split-created panes get
no Closed subscription. -/
theorem tab_wiring_amended (n : Nat) :
    (∀ i, i ∈ (splitPaneWiring^[n] (bindEventHandlersWiring tabCtorWiring)).createdLeaves →
      i ∈ (splitPaneWiring^[n] (bindEventHandlersWiring tabCtorWiring)).gotFocusSubs) ∧
    (splitPaneWiring^[n] (bindEventHandlersWiring tabCtorWiring)).closedSubs = [0] := by
  induction n with
  | zero =>
      constructor
      · intro i hi
        simp [bindEventHandlersWiring, tabCtorWiring, attachEventHandlersToPane] at hi ⊢
        exact hi
      · rfl
  | succ m ih =>
      rw [Function.iterate_succ_apply']
      constructor
      · exact splitPaneWiring_gotFocus _ ih.1
      · rw [splitPaneWiring_closedSubs]
        exact ih.2

theorem tab_wiring_amended_witness :
    1 ∈ (splitPaneWiring^[1] (bindEventHandlersWiring tabCtorWiring)).createdLeaves ∧
    1 ∈ (splitPaneWiring^[1] (bindEventHandlersWiring tabCtorWiring)).gotFocusSubs ∧
    (splitPaneWiring^[1] (bindEventHandlersWiring tabCtorWiring)).closedSubs = [0] :=
  ⟨by decide, (tab_wiring_amended 1).1 1 (by decide), (tab_wiring_amended 1).2⟩

/-- C4: when the active leaf's allocated size on the split axis is below twice
the minimum usable size, `Tab::CanSplitPane` returns false and `Tab::SplitPane`
performed in that state leaves the pane tree (the whole Tab state)
unchanged. -/
theorem tab_cannot_split_small_pane (minSize : Nat) (st : TabState) (s : SplitState)
    (t : Pane) (sz profile : Nat) (c : TermControl)
    (hroot : st.rootPane = some t)
    (hsz : activeLeafAxisSize s t = some sz)
    (hsmall : sz < 2 * minSize) :
    tabCanSplitPane minSize st s = false ∧
    tabSplitPane minSize st s profile c = st := by
  have hcan : tabCanSplitPane minSize st s = false := by
    simp only [tabCanSplitPane, hroot, paneCanSplit, hsz, decide_eq_false_iff_not, not_le]
    omega
  refine ⟨hcan, ?_⟩
  simp [tabSplitPane, hcan]

theorem tab_cannot_split_small_pane_witness :
    (activeLeafAxisSize SplitState.vertical (.leaf 0 ⟨"a"⟩ 30 24 true) = some 30 ∧
      30 < 2 * 20) ∧
    tabCanSplitPane 20 (tabInit 0 ⟨"a"⟩ 30 24) SplitState.vertical = false ∧
    tabSplitPane 20 (tabInit 0 ⟨"a"⟩ 30 24) SplitState.vertical 1 ⟨"b"⟩
      = tabInit 0 ⟨"a"⟩ 30 24 :=
  ⟨⟨by decide, by decide⟩,
    tab_cannot_split_small_pane 20 (tabInit 0 ⟨"a"⟩ 30 24) SplitState.vertical
      (.leaf 0 ⟨"a"⟩ 30 24 true) 30 1 ⟨"b"⟩ rfl (by decide) (by decide)⟩

/-- C5: the active-pane queries are embedded as pure functions of the Tab
state (the methods are const and mutate nothing); on an empty tree
GetActiveTitle returns the empty string, GetFocusedProfile an absent value
and GetActiveTerminalControl a null handle; on a live tree they delegate to
the tracked active leaf. -/
theorem tab_active_queries (st : TabState) :
    (st.rootPane = none →
      getActiveTerminalControl st = none ∧
      getFocusedProfile st = none ∧
      getActiveTitle st = "") ∧
    (∀ t p pr c w h a, st.rootPane = some t → st.activePanePath = some p →
      paneAt t p = some (.leaf pr c w h a) →
      getActiveTerminalControl st = some c ∧
      getFocusedProfile st = some pr ∧
      getActiveTitle st = c.title) := by
  constructor
  · intro hroot
    refine ⟨?_, ?_, ?_⟩ <;>
      simp [getActiveTerminalControl, getFocusedProfile, getActiveTitle, hroot]
  · intro t p pr c w h a hroot hpath hleaf
    refine ⟨?_, ?_, ?_⟩ <;>
      simp [getActiveTerminalControl, getFocusedProfile, getActiveTitle,
        hroot, hpath, hleaf]

theorem tab_active_queries_witness :
    getActiveTerminalControl demoTab = some ⟨"alpha"⟩ ∧
    getFocusedProfile demoTab = some 0 ∧
    getActiveTitle demoTab = TermControl.title ⟨"alpha"⟩ :=
  (tab_active_queries demoTab).2 demoTree [false] 0 ⟨"alpha"⟩ 40 24 true rfl rfl rfl

/-- C6: whenever the pane tree raises its Closed notification (the last leaf
closed, TreeEmptied), the Tab raises a Closed notification to its own owner;
the constructor-wired handler is unconditional — no filtering, state check or
suppression in any state. -/
theorem tab_propagates_closed (st : TabState) (t : Pane)
    (hroot : st.rootPane = some t) (hempt : closeActive t = none) :
    tabClosePane st = ({ st with rootPane := none }, true) ∧
    ∀ st1, closedHandler st1 = (st1, true) := by
  constructor
  · simp only [tabClosePane, hroot, hempt, closedHandler]
  · intro st1
    rfl

theorem tab_propagates_closed_witness :
    tabClosePane (tabInit 0 ⟨"solo"⟩ 80 24)
      = ({ tabInit 0 ⟨"solo"⟩ 80 24 with rootPane := none }, true) ∧
    ∀ st1, closedHandler st1 = (st1, true) :=
  tab_propagates_closed (tabInit 0 ⟨"solo"⟩ 80 24) (.leaf 0 ⟨"solo"⟩ 80 24 true)
    rfl rfl

/-- C7: SetFocused never changes which leaf is the active pane — the tracked
active-pane reference and the whole tree (hence every isActive flag) are the
same before and after with either argument, and the only state change is the
focus flag; SetFocused(true) issues a focus request on the active leaf's
terminal control exactly when there is one, and SetFocused(false) records the
flag and requests nothing. -/
theorem tab_setFocused_effect (st : TabState) (f : Bool) :
    (tabSetFocused st f).1.rootPane = st.rootPane ∧
    (tabSetFocused st f).1.activePanePath = st.activePanePath ∧
    (tabSetFocused st f).1 = { st with focused := f } ∧
    tabSetFocused st false = ({ st with focused := false }, none) ∧
    (tabSetFocused st true).2 = getActiveTerminalControl st := by
  refine ⟨?_, ?_, ?_, rfl, ?_⟩
  · cases f <;> rfl
  · cases f <;> rfl
  · cases f <;> rfl
  · rfl

/-- C9: UpdateIcon called with a path equal to the last path passed to it
returns immediately — no state change and no scheduled icon reload — so two
consecutive calls with the same path have the same effect as one. -/
theorem tab_updateIcon_idempotent (st : TabState) (p : String) :
    (st.lastIconPath = p → updateIcon st p = (st, false)) ∧
    updateIcon (updateIcon st p).1 p = ((updateIcon st p).1, false) := by
  constructor
  · intro hsame
    simp [updateIcon, hsame]
  · by_cases hsame : p = st.lastIconPath <;> simp [updateIcon, hsame]

theorem tab_updateIcon_idempotent_witness :
    demoTab.lastIconPath = "" ∧ updateIcon demoTab "" = (demoTab, false) :=
  ⟨rfl, (tab_updateIcon_idempotent demoTab "").1 rfl⟩

/-- C10: immediately after construction the tracked active pane is the root
pane — the single leaf wrapping the initial content — and every active-pane
query on the fresh Tab delegates to that root leaf. -/
theorem tab_init_active_is_root (profile : Nat) (c : TermControl) (w h : Nat) :
    (tabInit profile c w h).rootPane = some (.leaf profile c w h true) ∧
    (tabInit profile c w h).activePanePath = some [] ∧
    paneAt (.leaf profile c w h true) [] = some (.leaf profile c w h true) ∧
    getActiveTerminalControl (tabInit profile c w h) = some c ∧
    getFocusedProfile (tabInit profile c w h) = some profile ∧
    getActiveTitle (tabInit profile c w h) = c.title :=
  ⟨rfl, rfl, rfl, rfl, rfl, rfl⟩

/-- Content-layer effect of a control's title change: the control at the
given path (a leaf) now stores the new title; tree shape and flags are
untouched. -/
def setTitleAt : Pane → PanePath → String → Pane
  | .leaf pr _ w h a, [], nt => .leaf pr ⟨nt⟩ w h a
  | .leaf pr c w h a, _ :: _, _ => .leaf pr c w h a
  | .split s x y, [], _ => .split s x y
  | .split s x y, b :: p, nt =>
      if b then .split s x (setTitleAt y p nt) else .split s (setTitleAt x p nt) y

/-- Dispatch of a TitleChanged event raised by the control of the leaf at the
given path: the content layer has already stored the new title on that
control by the time the Tab-side handler runs. -/
def dispatchTitleChanged (st : TabState) (p : PanePath) (newTitle : String) : TabState :=
  titleChangedHandler
    { st with rootPane := (st.rootPane).map (fun t => setTitleAt t p newTitle) }
    newTitle

theorem paneAt_setTitleAt_ne (t : Pane) (p q : PanePath) (nt : String)
    (pr : Nat) (c : TermControl) (w h : Nat) (a : Bool)
    (hq : paneAt t q = some (.leaf pr c w h a)) (hne : p ≠ q) :
    paneAt (setTitleAt t p nt) q = some (.leaf pr c w h a) := by
  induction t generalizing p q with
  | leaf pr0 c0 w0 h0 a0 =>
      cases q with
      | nil =>
          cases p with
          | nil => exact absurd rfl hne
          | cons b p1 => simpa [setTitleAt] using hq
      | cons b q1 => simp [paneAt] at hq
  | split s x y ihx ihy =>
      cases q with
      | nil => simp [paneAt] at hq
      | cons bq q1 =>
          cases p with
          | nil => simpa [setTitleAt] using hq
          | cons bp p1 =>
              by_cases hb : bp = bq
              · subst hb
                have hne1 : p1 ≠ q1 := fun hh => hne (by rw [hh])
                cases bp with
                | false =>
                    have hq1 : paneAt x q1 = some (.leaf pr c w h a) := hq
                    simpa [setTitleAt, paneAt] using ihx p1 q1 hq1 hne1
                | true =>
                    have hq1 : paneAt y q1 = some (.leaf pr c w h a) := hq
                    simpa [setTitleAt, paneAt] using ihy p1 q1 hq1 hne1
              · cases bp with
                | false =>
                    cases bq with
                    | false => exact absurd rfl hb
                    | true =>
                        have hq1 : paneAt y q1 = some (.leaf pr c w h a) := hq
                        simpa [setTitleAt, paneAt] using hq1
                | true =>
                    cases bq with
                    | false =>
                        have hq1 : paneAt x q1 = some (.leaf pr c w h a) := hq
                        simpa [setTitleAt, paneAt] using hq1
                    | true => exact absurd rfl hb

/-- C8: a TitleChanged event from any attached control sets the tab's header
to the currently active pane's title — not to the new title carried by the
event (the handler is independent of its payload) — so a title change on a
non-active control leaves the displayed tab text equal to the active pane's
title. -/
theorem tab_titleChanged_uses_active_title (st : TabState) (t : Pane)
    (q : PanePath) (pr : Nat) (c : TermControl) (w h : Nat) (a : Bool)
    (p : PanePath) (nt : String)
    (hroot : st.rootPane = some t)
    (hq : st.activePanePath = some q)
    (hleaf : paneAt t q = some (.leaf pr c w h a))
    (hne : p ≠ q) :
    (dispatchTitleChanged st p nt).tabViewItemHeader = c.title ∧
    (∀ st1 n1 n2, titleChangedHandler st1 n1 = titleChangedHandler st1 n2) := by
  refine ⟨?_, fun st1 n1 n2 => rfl⟩
  have hpane := paneAt_setTitleAt_ne t p q nt pr c w h a hleaf hne
  simp [dispatchTitleChanged, titleChangedHandler, getActiveTitle,
    getActiveTerminalControl, hroot, hq, hpane]

theorem tab_titleChanged_uses_active_title_witness :
    ([true] : PanePath) ≠ [false] ∧
    (dispatchTitleChanged demoTab [true] "zeta").tabViewItemHeader
      = TermControl.title ⟨"alpha"⟩ ∧
    (∀ st1 n1 n2, titleChangedHandler st1 n1 = titleChangedHandler st1 n2) := by
  refine ⟨by decide, ?_, ?_⟩
  · exact (tab_titleChanged_uses_active_title demoTab demoTree [false] 0 ⟨"alpha"⟩
      40 24 true [true] "zeta" rfl rfl rfl (by decide)).1
  · exact (tab_titleChanged_uses_active_title demoTab demoTree [false] 0 ⟨"alpha"⟩
      40 24 true [true] "zeta" rfl rfl rfl (by decide)).2

end Terminal
